import Mathlib

/-!
Verification of the PDF metadata extraction service (Hono + pdf-parse +
structured LLM generation).  The extraction pipeline in `src/index.ts`
(`app.post("/extract")`) is embedded as a pure function parameterised over
its two external collaborators — the Text Extractor (`pdf-parse`) and the
Metadata Generator (`generateObject`) — each modelled as a function
returning `Except String _` (an exception carries its message string).
An instrumentation trace records how often each collaborator was invoked
and with which prompt, so that claims about collaborators never being
called can be stated directly.
-/

namespace HonoPdf

/-- Closed set of document types from `documentMetadataSchema` in
`src/schema.ts` (the `z.enum` with ten values). -/
inductive DocumentType where
  | report
  | article
  | letter
  | contract
  | manual
  | presentation
  | academic_paper
  | invoice
  | resume
  | other
deriving DecidableEq, Repr

/-- Structured record validated by `documentMetadataSchema` in
`src/schema.ts`: title, nullable author, summary, topics, keywords and
`documentType` drawn from the closed enum. -/
structure DocumentMetadata where
  title : String
  author : Option String
  summary : String
  topics : List String
  keywords : List String
  documentType : DocumentType
deriving DecidableEq, Repr

/-- Result of the Text Extractor collaborator (`pdf-parse`): the extracted
text and the page count (`pdfData.text`, `pdfData.numpages`). -/
structure PdfData where
  text : String
  numpages : Nat
deriving DecidableEq, Repr

/-- An uploaded binary file as Hono's `parseBody` presents it: a `File`
value with an optional `name` property (the filename may be undefined) and
raw byte content (bytes are only ever forwarded to the extractor). -/
structure UploadedFile where
  name : Option String
  bytes : List Nat
deriving DecidableEq, Repr

/-- A value of the multipart form field `file` as returned by
`body["file"]`: either a plain string or a binary file.  Absence of the
field is modelled by `Option FormField` at the pipeline entry. -/
inductive FormField where
  | str (s : String)
  | file (f : UploadedFile)
deriving DecidableEq, Repr

/-- The `stats` object of the success envelope. -/
structure Stats where
  pageCount : Nat
  textLength : Nat
deriving DecidableEq, Repr

/-- The success `ResponseEnvelope` returned by `c.json({...})` on the happy
path of `/extract`. -/
structure Envelope where
  success : Bool
  metadata : DocumentMetadata
  rawText : String
  stats : Stats
deriving DecidableEq, Repr

/-- The JSON body of a response from `/extract`: either the success
envelope, or an object with a single string field `error`. -/
inductive Body where
  | envelope (env : Envelope)
  | error (msg : String)
deriving DecidableEq, Repr

/-- An HTTP response from the service: status code plus JSON body. -/
structure Response where
  status : Nat
  body : Body
deriving DecidableEq, Repr

/-- Instrumentation of one pipeline run: how many times the Text Extractor
was invoked, and the list of prompts handed to the Metadata Generator (in
invocation order). -/
structure Trace where
  extractorCalls : Nat
  generatorPrompts : List String
deriving DecidableEq, Repr

/-- Error message of the presence check (`MissingFile`, HTTP 400). -/
def missingFileMsg : String :=
  "No PDF file uploaded. Please upload a file with field name \"file\"."

/-- Error message of the type check (`UnsupportedFileType`, HTTP 400). -/
def unsupportedFileTypeMsg : String :=
  "Only PDF files are accepted. Please upload a .pdf file."

/-- Error message of the emptiness check (`NoTextContent`, HTTP 422). -/
def noTextContentMsg : String :=
  "Could not extract text from PDF. The file may be scanned or image-based."

/-- Error message of the catch-all handler (HTTP 500): the underlying
exception message appended to a fixed description. -/
def processFailureMsg (m : String) : String :=
  "Failed to process PDF: " ++ m

/-- Character-level lowercasing, embedding JavaScript `toLowerCase` on the
(ASCII) filenames the type check compares. -/
def toLowerStr (s : String) : String :=
  String.mk (s.data.map Char.toLower)

/-- Suffix test on strings by character lists, embedding JavaScript
`String.prototype.endsWith`. -/
def strEndsWith (s suff : String) : Bool :=
  List.isSuffixOf suff.data s.data

/-- The type check of the pipeline, embedding
`file.name?.toLowerCase().endsWith(".pdf")`: optional chaining makes the
whole expression undefined (falsy) when `name` is absent, so an absent
filename fails the check exactly like a non-`.pdf` one. -/
def fileNameIsPdf : Option String → Bool
  | none => false
  | some n => strEndsWith (toLowerStr n) ".pdf"

/-- Whitespace as JavaScript `String.prototype.trim` strips it: the
ECMA-262 WhiteSpace set (tab, vertical tab, form feed, zero-width
no-break space U+FEFF and every Space_Separator character: space,
no-break space U+00A0, U+1680, U+2000 through U+200A, U+202F, U+205F
and ideographic space U+3000) together with the LineTerminator set
(line feed, carriage return, line separator U+2028, paragraph
separator U+2029). -/
def jsWhitespace (c : Char) : Bool :=
  c == ' ' || c == '\t' || c == '\n' || c == '\r' || c == '\x0b' ||
    c == '\x0c' || c == '\u00A0' || c == '\uFEFF' || c == '\u1680' ||
    (0x2000 ≤ c.toNat && c.toNat ≤ 0x200A) || c == '\u2028' ||
    c == '\u2029' || c == '\u202F' || c == '\u205F' || c == '\u3000'

/-- Embedding of JavaScript `trim`: drop whitespace from both ends. -/
def trimChars (s : String) : String :=
  String.mk (((s.data.dropWhile jsWhitespace).reverse.dropWhile
    jsWhitespace).reverse)

/-- Embedding of `extractedText.slice(0, n)`: the first `n` characters. -/
def sliceTo (s : String) (n : Nat) : String :=
  String.mk (s.data.take n)

/-- The prompt template text preceding the document text. -/
def promptHeader : String :=
  "Analyze the following document text and extract metadata.\n\nDocument text:\n---\n"

/-- The prompt template text following the document text. -/
def promptFooter : String :=
  "\n---"

/-- The prompt handed to `generateObject`: the template with the extracted
text truncated to 15000 characters (`extractedText.slice(0, 15000)`). -/
def mkPrompt (extractedText : String) : String :=
  promptHeader ++ sliceTo extractedText 15000 ++ promptFooter

/-- The extraction pipeline, embedding the `/extract` handler of
`src/index.ts` stage by stage: presence check, type check, text
extraction, emptiness check, prompt construction, structured generation,
envelope assembly; any collaborator exception is caught and reported as a
500 with `processFailureMsg`.  Returns the HTTP response together with the
instrumentation trace. -/
def extract (extractor : List Nat → Except String PdfData)
    (generator : String → Except String DocumentMetadata)
    (file : Option FormField) : Response × Trace :=
  match file with
  | none =>
    ({ status := 400, body := Body.error missingFileMsg },
     { extractorCalls := 0, generatorPrompts := [] })
  | some (FormField.str _) =>
    ({ status := 400, body := Body.error missingFileMsg },
     { extractorCalls := 0, generatorPrompts := [] })
  | some (FormField.file f) =>
    if !fileNameIsPdf f.name then
      ({ status := 400, body := Body.error unsupportedFileTypeMsg },
       { extractorCalls := 0, generatorPrompts := [] })
    else
      match extractor f.bytes with
      | Except.error m =>
        ({ status := 500, body := Body.error (processFailureMsg m) },
         { extractorCalls := 1, generatorPrompts := [] })
      | Except.ok pdfData =>
        if pdfData.text == "" || (trimChars pdfData.text).length == 0 then
          ({ status := 422, body := Body.error noTextContentMsg },
           { extractorCalls := 1, generatorPrompts := [] })
        else
          match generator (mkPrompt pdfData.text) with
          | Except.error m =>
            ({ status := 500, body := Body.error (processFailureMsg m) },
             { extractorCalls := 1, generatorPrompts := [mkPrompt pdfData.text] })
          | Except.ok md =>
            ({ status := 200,
               body := Body.envelope
                 { success := true
                   metadata := md
                   rawText := pdfData.text
                   stats := { pageCount := pdfData.numpages
                              textLength := pdfData.text.length } } },
             { extractorCalls := 1, generatorPrompts := [mkPrompt pdfData.text] })

/-- The JSON body returned by the health-check endpoint `GET /`. -/
structure HealthBody where
  status : String
  message : String
  endpointExtract : String
  endpointDocs : String
deriving DecidableEq, Repr

/-- The health-check handler `app.get("/")`: it ignores the request and
returns a fixed JSON object (HTTP 200). -/
def healthCheck (_req : String) : Nat × HealthBody :=
  (200,
   { status := "ok"
     message := "PDF Metadata Extraction API"
     endpointExtract := "Upload a PDF to extract metadata"
     endpointDocs := "Swagger UI documentation" })

/-- Concrete metadata value used to instantiate the Metadata Generator in
witness runs. -/
def sampleMetadata : DocumentMetadata :=
  { title := "Sample"
    author := none
    summary := "A sample document."
    topics := ["testing"]
    keywords := ["sample"]
    documentType := DocumentType.report }

/-- Extractor stub that always succeeds with a fixed five-character text
and one page, used in witness runs. -/
def okExtractor : List Nat → Except String PdfData :=
  fun _ => Except.ok { text := "hello", numpages := 1 }

/-- Generator stub that always succeeds with `sampleMetadata`, used in
witness runs. -/
def okGenerator : String → Except String DocumentMetadata :=
  fun _ => Except.ok sampleMetadata

/-- Extractor stub that always throws, used in witness runs. -/
def failExtractor : List Nat → Except String PdfData :=
  fun _ => Except.error "bad pdf"

/-- A concrete uploaded file with a `.pdf` filename, used in witness
runs. -/
def samplePdfFile : UploadedFile :=
  { name := some "Report.PDF", bytes := [37, 80, 68, 70] }

/-- Helper: the full characterisation of a successful run, shared by the
truncation and envelope claims. -/
theorem extract_success_run
    (extractor : List Nat → Except String PdfData)
    (generator : String → Except String DocumentMetadata)
    (f : UploadedFile) (d : PdfData) (md : DocumentMetadata)
    (hname : fileNameIsPdf f.name = true)
    (hex : extractor f.bytes = Except.ok d)
    (hne : (d.text == "" || (trimChars d.text).length == 0) = false)
    (hgen : generator (mkPrompt d.text) = Except.ok md) :
    extract extractor generator (some (FormField.file f)) =
      ({ status := 200,
         body := Body.envelope
           { success := true, metadata := md, rawText := d.text,
             stats := { pageCount := d.numpages,
                        textLength := d.text.length } } },
       { extractorCalls := 1, generatorPrompts := [mkPrompt d.text] }) := by
  simp [extract, hname, hex, hne, hgen]

/-- Claim C1: when the `file` field is absent or is a plain string rather
than binary content, the pipeline returns the MissingFile error (HTTP 400
with an error message) and neither the Text Extractor nor the Metadata
Generator is invoked. -/
theorem c1_missing_file (extractor : List Nat → Except String PdfData)
    (generator : String → Except String DocumentMetadata)
    (file : Option FormField)
    (h : file = none ∨ ∃ s, file = some (FormField.str s)) :
    extract extractor generator file =
      ({ status := 400, body := Body.error missingFileMsg },
       { extractorCalls := 0, generatorPrompts := [] }) := by
  rcases h with h | ⟨s, h⟩ <;> subst h <;> rfl

/-- Witness for C1 at a concrete input: the absent field. -/
theorem c1_missing_file_witness :
    extract failExtractor okGenerator none =
      ({ status := 400, body := Body.error missingFileMsg },
       { extractorCalls := 0, generatorPrompts := [] }) :=
  c1_missing_file failExtractor okGenerator none (Or.inl rfl)

/-- Claim C2: a binary file whose filename does not end in `.pdf`
case-insensitively is rejected with the UnsupportedFileType error (HTTP
400) before the Text Extractor is called; the result is a fixed value
independent of the file bytes and of both collaborators, so no content
sniffing occurs. -/
theorem c2_unsupported_file_type
    (extractor : List Nat → Except String PdfData)
    (generator : String → Except String DocumentMetadata)
    (f : UploadedFile) (n : String) (hn : f.name = some n)
    (h : strEndsWith (toLowerStr n) ".pdf" = false) :
    extract extractor generator (some (FormField.file f)) =
      ({ status := 400, body := Body.error unsupportedFileTypeMsg },
       { extractorCalls := 0, generatorPrompts := [] }) := by
  simp [extract, fileNameIsPdf, hn, h]

/-- Witness for C2 at a concrete input: a file named `notes.txt`. -/
theorem c2_unsupported_file_type_witness :
    extract okExtractor okGenerator
        (some (FormField.file { name := some "notes.txt", bytes := [1] })) =
      ({ status := 400, body := Body.error unsupportedFileTypeMsg },
       { extractorCalls := 0, generatorPrompts := [] }) :=
  c2_unsupported_file_type okExtractor okGenerator
    { name := some "notes.txt", bytes := [1] } "notes.txt" rfl (by decide)

/-- Claim C3: when the upload passes the presence and type checks and the
Text Extractor returns text that is empty or whitespace-only, the pipeline
returns the NoTextContent error (HTTP 422) and the Metadata Generator is
never called. -/
theorem c3_no_text_content
    (extractor : List Nat → Except String PdfData)
    (generator : String → Except String DocumentMetadata)
    (f : UploadedFile) (d : PdfData)
    (hname : fileNameIsPdf f.name = true)
    (hex : extractor f.bytes = Except.ok d)
    (hws : trimChars d.text = "") :
    extract extractor generator (some (FormField.file f)) =
      ({ status := 422, body := Body.error noTextContentMsg },
       { extractorCalls := 1, generatorPrompts := [] }) := by
  simp [extract, hname, hex, hws]

/-- Witness for C3 at a concrete input: an extractor returning
whitespace-only text from a `.pdf`-named upload. -/
theorem c3_no_text_content_witness :
    extract (fun _ => Except.ok { text := " \n ", numpages := 3 })
        okGenerator (some (FormField.file samplePdfFile)) =
      ({ status := 422, body := Body.error noTextContentMsg },
       { extractorCalls := 1, generatorPrompts := [] }) :=
  c3_no_text_content (fun _ => Except.ok { text := " \n ", numpages := 3 })
    okGenerator samplePdfFile { text := " \n ", numpages := 3 }
    (by decide) rfl (by decide)

/-- Claim C4: on a successful run, the generator prompt embeds exactly
`sliceTo text 15000` between the fixed header and footer; that slice is
the whole text when the text has at most 15000 characters and exactly the
first 15000 characters when it is longer; and the response carries the
full untruncated text as `rawText`, with no truncation warning field in
the envelope. -/
theorem c4_prompt_truncation
    (extractor : List Nat → Except String PdfData)
    (generator : String → Except String DocumentMetadata)
    (f : UploadedFile) (d : PdfData) (md : DocumentMetadata)
    (hname : fileNameIsPdf f.name = true)
    (hex : extractor f.bytes = Except.ok d)
    (hne : (d.text == "" || (trimChars d.text).length == 0) = false)
    (hgen : generator (mkPrompt d.text) = Except.ok md) :
    (extract extractor generator (some (FormField.file f))).2.generatorPrompts =
        [promptHeader ++ sliceTo d.text 15000 ++ promptFooter] ∧
      (d.text.length ≤ 15000 → sliceTo d.text 15000 = d.text) ∧
      (sliceTo d.text 15000).data = d.text.data.take 15000 ∧
      (15000 ≤ d.text.length → (sliceTo d.text 15000).length = 15000) ∧
      (extract extractor generator (some (FormField.file f))).1.body =
        Body.envelope
          { success := true, metadata := md, rawText := d.text,
            stats := { pageCount := d.numpages,
                       textLength := d.text.length } } := by
  have hrun := extract_success_run extractor generator f d md hname hex hne hgen
  refine ⟨?_, ?_, rfl, ?_, ?_⟩
  · rw [hrun]
    rfl
  · intro hlen
    unfold sliceTo
    rw [List.take_of_length_le hlen]
  · intro hlen
    have h2 : (sliceTo d.text 15000).length = (d.text.data.take 15000).length :=
      rfl
    have h3 : d.text.data.length = d.text.length := rfl
    rw [h2, List.length_take]
    omega
  · rw [hrun]

/-- Witness for C4 at a concrete input: a five-character extraction. -/
theorem c4_prompt_truncation_witness :
    ((extract okExtractor okGenerator
          (some (FormField.file samplePdfFile))).2.generatorPrompts =
        [promptHeader ++ sliceTo "hello" 15000 ++ promptFooter] ∧
      (("hello" : String).length ≤ 15000 → sliceTo "hello" 15000 = "hello") ∧
      (sliceTo "hello" 15000).data = ("hello" : String).data.take 15000 ∧
      (15000 ≤ ("hello" : String).length →
        (sliceTo "hello" 15000).length = 15000) ∧
      (extract okExtractor okGenerator
          (some (FormField.file samplePdfFile))).1.body =
        Body.envelope
          { success := true, metadata := sampleMetadata, rawText := "hello",
            stats := { pageCount := 1, textLength := ("hello" : String).length } }) :=
  c4_prompt_truncation okExtractor okGenerator samplePdfFile
    { text := "hello", numpages := 1 } sampleMetadata
    (by decide) rfl (by decide) rfl

/-- Claim C5: on a successful run the response is exactly the envelope
with `success = true`, the generator's validated output as `metadata`, the
full extracted text as `rawText`, the extractor's page count, and
`textLength` equal to the character length of the full text (hence of
`rawText`), whether or not the prompt was truncated. -/
theorem c5_success_envelope
    (extractor : List Nat → Except String PdfData)
    (generator : String → Except String DocumentMetadata)
    (f : UploadedFile) (d : PdfData) (md : DocumentMetadata)
    (hname : fileNameIsPdf f.name = true)
    (hex : extractor f.bytes = Except.ok d)
    (hne : (d.text == "" || (trimChars d.text).length == 0) = false)
    (hgen : generator (mkPrompt d.text) = Except.ok md) :
    extract extractor generator (some (FormField.file f)) =
      ({ status := 200,
         body := Body.envelope
           { success := true, metadata := md, rawText := d.text,
             stats := { pageCount := d.numpages,
                        textLength := d.text.length } } },
       { extractorCalls := 1, generatorPrompts := [mkPrompt d.text] }) := by
  simp [extract, hname, hex, hne, hgen]

/-- Witness for C5 at a concrete input. -/
theorem c5_success_envelope_witness :
    extract okExtractor okGenerator (some (FormField.file samplePdfFile)) =
      ({ status := 200,
         body := Body.envelope
           { success := true, metadata := sampleMetadata, rawText := "hello",
             stats := { pageCount := 1,
                        textLength := ("hello" : String).length } } },
       { extractorCalls := 1, generatorPrompts := [mkPrompt "hello"] }) :=
  c5_success_envelope okExtractor okGenerator samplePdfFile
    { text := "hello", numpages := 1 } sampleMetadata
    (by decide) rfl (by decide) rfl

/-- Claim C6: when the Text Extractor throws, or the Metadata Generator
throws on a non-empty extraction, the pipeline returns HTTP 500 with an
error message that appends the underlying failure message; each
collaborator is invoked at most once (no retry), and the pipeline still
returns a value (the failure is confined to the request). -/
theorem c6_collaborator_failure
    (extractor : List Nat → Except String PdfData)
    (generator : String → Except String DocumentMetadata)
    (f : UploadedFile) (m : String)
    (hname : fileNameIsPdf f.name = true)
    (h : extractor f.bytes = Except.error m ∨
         ∃ d, extractor f.bytes = Except.ok d ∧
           (d.text == "" || (trimChars d.text).length == 0) = false ∧
           generator (mkPrompt d.text) = Except.error m) :
    (extract extractor generator (some (FormField.file f))).1 =
        { status := 500,
          body := Body.error ("Failed to process PDF: " ++ m) } ∧
      (extract extractor generator
          (some (FormField.file f))).2.extractorCalls ≤ 1 ∧
      (extract extractor generator
          (some (FormField.file f))).2.generatorPrompts.length ≤ 1 := by
  rcases h with h | ⟨d, hex, hne, hgen⟩
  · refine ⟨?_, ?_, ?_⟩ <;> simp [extract, hname, h, processFailureMsg]
  · refine ⟨?_, ?_, ?_⟩ <;>
      simp [extract, hname, hex, hne, hgen, processFailureMsg]

/-- Witness for C6 at a concrete input: an extractor that throws. -/
theorem c6_collaborator_failure_witness :
    ((extract failExtractor okGenerator
          (some (FormField.file samplePdfFile))).1 =
        { status := 500,
          body := Body.error ("Failed to process PDF: " ++ "bad pdf") } ∧
      (extract failExtractor okGenerator
          (some (FormField.file samplePdfFile))).2.extractorCalls ≤ 1 ∧
      (extract failExtractor okGenerator
          (some (FormField.file samplePdfFile))).2.generatorPrompts.length ≤ 1) :=
  c6_collaborator_failure failExtractor okGenerator samplePdfFile "bad pdf"
    (by decide) (Or.inl rfl)

/-- Claim C7: every result of the pipeline is either the 200 success
envelope with `success = true`, or a status in 400, 422, 500 whose body is
a JSON object with a single string field `error`; no other outcome
exists. -/
theorem c7_error_surface
    (extractor : List Nat → Except String PdfData)
    (generator : String → Except String DocumentMetadata)
    (file : Option FormField) :
    (∃ env, (extract extractor generator file).1 =
        { status := 200, body := Body.envelope env } ∧ env.success = true) ∨
    ∃ code msg, (extract extractor generator file).1 =
        { status := code, body := Body.error msg } ∧
      (code = 400 ∨ code = 422 ∨ code = 500) := by
  unfold extract
  split
  · exact Or.inr ⟨400, missingFileMsg, rfl, Or.inl rfl⟩
  · exact Or.inr ⟨400, missingFileMsg, rfl, Or.inl rfl⟩
  · split
    · exact Or.inr ⟨400, unsupportedFileTypeMsg, rfl, Or.inl rfl⟩
    · split
      · exact Or.inr ⟨500, _, rfl, Or.inr (Or.inr rfl)⟩
      · split
        · exact Or.inr ⟨422, noTextContentMsg, rfl, Or.inr (Or.inl rfl)⟩
        · split
          · exact Or.inr ⟨500, _, rfl, Or.inr (Or.inr rfl)⟩
          · exact Or.inl ⟨_, rfl, rfl⟩

/-- Claim C8: any success envelope carries a `documentType` belonging to
the fixed closed set of ten schema values. -/
theorem c8_document_type_closed
    (extractor : List Nat → Except String PdfData)
    (generator : String → Except String DocumentMetadata)
    (file : Option FormField) (env : Envelope)
    (_h : (extract extractor generator file).1.body = Body.envelope env) :
    env.metadata.documentType ∈
      [DocumentType.report, DocumentType.article, DocumentType.letter,
       DocumentType.contract, DocumentType.manual, DocumentType.presentation,
       DocumentType.academic_paper, DocumentType.invoice, DocumentType.resume,
       DocumentType.other] := by
  generalize env.metadata.documentType = dt
  cases dt <;> decide

/-- Witness for C8 at a concrete successful run. -/
theorem c8_document_type_closed_witness :
    ({ success := true, metadata := sampleMetadata, rawText := "hello",
       stats := { pageCount := 1, textLength := ("hello" : String).length } } :
        Envelope).metadata.documentType ∈
      [DocumentType.report, DocumentType.article, DocumentType.letter,
       DocumentType.contract, DocumentType.manual, DocumentType.presentation,
       DocumentType.academic_paper, DocumentType.invoice, DocumentType.resume,
       DocumentType.other] :=
  c8_document_type_closed okExtractor okGenerator
    (some (FormField.file samplePdfFile))
    { success := true, metadata := sampleMetadata, rawText := "hello",
      stats := { pageCount := 1, textLength := ("hello" : String).length } }
    (by decide)

/-- Claim C9: the health check is a pure constant — any two invocations,
whatever the request, return the same fixed status-200 JSON object. -/
theorem c9_health_check_constant (r1 r2 : String) :
    healthCheck r1 = healthCheck r2 ∧
      healthCheck r1 =
        (200,
         { status := "ok"
           message := "PDF Metadata Extraction API"
           endpointExtract := "Upload a PDF to extract metadata"
           endpointDocs := "Swagger UI documentation" }) :=
  ⟨rfl, rfl⟩

/-- Claim C10: a binary file whose filename property is absent does not
crash the type check (the guard is total) and is rejected with the
UnsupportedFileType error (HTTP 400), exactly like a non-`.pdf` filename,
with the Text Extractor never invoked. -/
theorem c10_absent_filename
    (extractor : List Nat → Except String PdfData)
    (generator : String → Except String DocumentMetadata)
    (f : UploadedFile) (h : f.name = none) :
    extract extractor generator (some (FormField.file f)) =
      ({ status := 400, body := Body.error unsupportedFileTypeMsg },
       { extractorCalls := 0, generatorPrompts := [] }) := by
  simp [extract, fileNameIsPdf, h]

/-- Witness for C10 at a concrete input: a file with no name. -/
theorem c10_absent_filename_witness :
    extract okExtractor okGenerator
        (some (FormField.file { name := none, bytes := [9] })) =
      ({ status := 400, body := Body.error unsupportedFileTypeMsg },
       { extractorCalls := 0, generatorPrompts := [] }) :=
  c10_absent_filename okExtractor okGenerator
    { name := none, bytes := [9] } rfl

end HonoPdf
